import Mathlib

/-!
Shallow embedding of the gg-pdf adapter (package `pdf` of gogpu/gg-pdf):
the PDF `Backend` for gg's recording system and the multi-page `Document`
coordinator. Go `float64` scalars are embedded as `ℚ` (the properties at
stake are exact affine/bookkeeping facts, not rounding facts). The external
collaborators — gg's `recording`/`gg`/`text` value types and the gxpdf
`creator` document engine — are embedded just deep enough for the adapter
code: value types follow the fields the adapter reads, and engine entry
points not in this repository are modelled from the spec (marked
`Modelled from the spec:`). Engine outcomes that Go surfaces as `error`
values are made explicit `Bool`/supply parameters.
-/

namespace recording

/-- `recording.Matrix`: a drawing-space affine matrix, row-major
`[A B C; D E F]` (see the source comment in `matrixToTransform`). -/
structure Matrix where
  A : ℚ
  B : ℚ
  C : ℚ
  D : ℚ
  E : ℚ
  F : ℚ
deriving DecidableEq, Repr

/-- Modelled from the spec: `recording.Identity()` of the external gg
recording package — the drawing-space identity matrix, in row-major form
`[A B C; D E F]` rows `(1,0,0)` and `(0,1,0)`. -/
def Identity : Matrix := ⟨1, 0, 0, 0, 1, 0⟩

/-- The Go zero value of `recording.Matrix` (all fields 0), the state of
`currentTransform` in a `Backend` struct before it is assigned. -/
def Matrix.zero : Matrix := ⟨0, 0, 0, 0, 0, 0⟩

/-- A gg `RGBA` color with byte components, as read by the adapter
(`.R`, `.G`, `.B`, `.A`, each 0–255). -/
structure RGBA where
  R : ℕ
  G : ℕ
  B : ℕ
  A : ℕ
deriving DecidableEq, Repr

/-- A 2-D point (`gg.Point`), as read via `.X` / `.Y`. -/
structure Point where
  X : ℚ
  Y : ℚ
deriving DecidableEq, Repr

/-- `recording.GradientStop`: offset plus color, as read via
`.Offset` / `.Color`. -/
structure GradientStop where
  Offset : ℚ
  Color : RGBA
deriving DecidableEq, Repr

/-- `recording.SolidBrush` (field `Color` is all the adapter reads). -/
structure SolidBrush where
  Color : RGBA
deriving DecidableEq, Repr

/-- `recording.LinearGradientBrush`, restricted to the fields the adapter
reads: `Start`, `End`, `Stops`. -/
structure LinearGradientBrush where
  Start : Point
  End : Point
  Stops : List GradientStop
deriving DecidableEq, Repr

/-- `recording.RadialGradientBrush`, restricted to the fields the adapter
reads: `Center`, `StartRadius`, `Focus`, `EndRadius`, `Stops`. -/
structure RadialGradientBrush where
  Center : Point
  StartRadius : ℚ
  Focus : Point
  EndRadius : ℚ
  Stops : List GradientStop
deriving DecidableEq, Repr

/-- `recording.SweepGradientBrush`, restricted to the only field the
adapter reads: `Stops`. -/
structure SweepGradientBrush where
  Stops : List GradientStop
deriving DecidableEq, Repr

/-- `recording.Brush` is a Go interface; the adapter's type switches
handle solid, linear-, radial- and sweep-gradient brushes, with a
`default:` arm for any other implementation — embedded here as the
`other` constructor. -/
inductive Brush where
  | solid (br : SolidBrush)
  | linearGradient (br : LinearGradientBrush)
  | radialGradient (br : RadialGradientBrush)
  | sweepGradient (br : SweepGradientBrush)
  | other
deriving DecidableEq, Repr

/-- `recording.FillRule`. -/
inductive FillRule where
  | NonZero
  | EvenOdd
deriving DecidableEq, Repr

/-- `recording.LineCap`. -/
inductive LineCap where
  | Butt
  | Round
  | Square
deriving DecidableEq, Repr

/-- `recording.LineJoin`. -/
inductive LineJoin where
  | Miter
  | Round
  | Bevel
deriving DecidableEq, Repr

/-- `recording.Stroke`, the fields the adapter reads. -/
structure Stroke where
  Width : ℚ
  Cap : LineCap
  Join : LineJoin
  MiterLimit : ℚ
  DashPattern : List ℚ
  DashOffset : ℚ
deriving DecidableEq, Repr

/-- `recording.Rect`, as read via `.MinX`, `.MinY`, `.Width()`,
`.Height()`. -/
structure Rect where
  MinX : ℚ
  MinY : ℚ
  MaxX : ℚ
  MaxY : ℚ
deriving DecidableEq, Repr

/-- `Rect.Width()`. -/
def Rect.Width (r : Rect) : ℚ := r.MaxX - r.MinX

/-- `Rect.Height()`. -/
def Rect.Height (r : Rect) : ℚ := r.MaxY - r.MinY

/-- `recording.ImageOptions`, the field the adapter reads (`Alpha`). -/
structure ImageOptions where
  Alpha : ℚ
deriving DecidableEq, Repr

end recording

namespace gg

/-- A `gg.Path` element, as consumed by the adapter's type switch in
`translatePath`: `MoveTo`, `LineTo`, `QuadTo`, `CubicTo`, `Close`. -/
inductive PathElem where
  | moveTo (Point : recording.Point)
  | lineTo (Point : recording.Point)
  | quadTo (Control Point : recording.Point)
  | cubicTo (Control1 Control2 Point : recording.Point)
  | close
deriving DecidableEq, Repr

/-- A `gg.Path`, embedded as its element list (`path.Elements()`). -/
def Path := List PathElem
deriving DecidableEq

end gg

namespace text

/-- A gg `text.Face`, restricted to what the adapter reads: `Size()` and
`Metrics().LineHeight()`. -/
structure Face where
  Size : ℚ
  LineHeight : ℚ
deriving DecidableEq, Repr

end text

namespace creator

/-- The gxpdf `creator.Transform` `[a b c d e f]`, representing the matrix
`[a c e; b d f; 0 0 1]` (documented in the source's `matrixToTransform`
comment). -/
structure Transform where
  A : ℚ
  B : ℚ
  C : ℚ
  D : ℚ
  E : ℚ
  F : ℚ
deriving DecidableEq, Repr

/-- Application of an engine transform to a point, per the matrix form
`[a c e; b d f; 0 0 1]` documented in the source. -/
def Transform.apply (t : Transform) (p : ℚ × ℚ) : ℚ × ℚ :=
  (t.A * p.1 + t.C * p.2 + t.E, t.B * p.1 + t.D * p.2 + t.F)

/-- Modelled from the spec: the engine's `creator.Translate`. -/
def Translate (tx ty : ℚ) : Transform := ⟨1, 0, 0, 1, tx, ty⟩

/-- Modelled from the spec: the engine's `creator.Scale`. -/
def Scale (sx sy : ℚ) : Transform := ⟨sx, 0, 0, sy, 0, 0⟩

/-- Modelled from the spec: the engine's `Transform.Then` composition,
fixed (as the spec's §8 flip property requires, and the third conjunct of
`Transform.apply_Then` below witnesses) so that
`(Translate 0 h).Then (Scale 1 (-1))` sends `(x, y)` to `(x, h − y)`:
`t.Then u` is the matrix product applying `u` first, then `t`. -/
def Transform.Then (t u : Transform) : Transform :=
  ⟨t.A * u.A + t.C * u.B,
   t.B * u.A + t.D * u.B,
   t.A * u.C + t.C * u.D,
   t.B * u.C + t.D * u.D,
   t.A * u.E + t.C * u.F + t.E,
   t.B * u.E + t.D * u.F + t.F⟩

theorem Transform.apply_Then (t u : Transform) (p : ℚ × ℚ) :
    (t.Then u).apply p = t.apply (u.apply p) := by
  simp only [Transform.apply, Transform.Then]
  refine Prod.ext ?_ ?_ <;> simp <;> ring

/-- Modelled from the spec: the engine's `creator.Identity()`. -/
def Identity : Transform := ⟨1, 0, 0, 1, 0, 0⟩

/-- Modelled from the spec: the composite point mapping of the engine's
transform stack (head = most recently pushed layer): the most recent
layer applies first, the base layer at the bottom applies last — so a
layer pushed at initialization sits "underneath" every later layer. -/
def applyStack : List Transform → ℚ × ℚ → ℚ × ℚ
  | [], p => p
  | t :: ts, p => applyStack ts (t.apply p)

/-- A gxpdf `creator.Color` (unit-interval RGB components). -/
structure Color where
  R : ℚ
  G : ℚ
  B : ℚ
deriving DecidableEq, Repr

/-- Modelled from the spec: the engine's `creator.Black`. -/
def Black : Color := ⟨0, 0, 0⟩

/-- Modelled from the spec: the engine's `creator.FillRule`. -/
inductive FillRule where
  | NonZero
  | EvenOdd
deriving DecidableEq, Repr

/-- Modelled from the spec: a gxpdf linear gradient, accumulating color
stops in call order (`NewLinearGradient` + `AddColorStop`). -/
structure LinearGradient where
  X0 : ℚ
  Y0 : ℚ
  X1 : ℚ
  Y1 : ℚ
  Stops : List (ℚ × Color)
deriving DecidableEq, Repr

/-- Modelled from the spec: `creator.NewLinearGradient` (no stops yet). -/
def NewLinearGradient (x0 y0 x1 y1 : ℚ) : LinearGradient :=
  ⟨x0, y0, x1, y1, []⟩

/-- Modelled from the spec: `LinearGradient.AddColorStop` appends a stop,
preserving call order. -/
def LinearGradient.AddColorStop (g : LinearGradient) (offset : ℚ) (c : Color) :
    LinearGradient :=
  { g with Stops := g.Stops ++ [(offset, c)] }

/-- Modelled from the spec: a gxpdf radial gradient, accumulating color
stops in call order (`NewRadialGradient` + `AddColorStop`). -/
structure RadialGradient where
  CX : ℚ
  CY : ℚ
  R0 : ℚ
  FX : ℚ
  FY : ℚ
  R1 : ℚ
  Stops : List (ℚ × Color)
deriving DecidableEq, Repr

/-- Modelled from the spec: `creator.NewRadialGradient` (no stops yet). -/
def NewRadialGradient (cx cy r0 fx fy r1 : ℚ) : RadialGradient :=
  ⟨cx, cy, r0, fx, fy, r1, []⟩

/-- Modelled from the spec: `RadialGradient.AddColorStop` appends a stop,
preserving call order. -/
def RadialGradient.AddColorStop (g : RadialGradient) (offset : ℚ) (c : Color) :
    RadialGradient :=
  { g with Stops := g.Stops ++ [(offset, c)] }

/-- Modelled from the spec: the paint source a gxpdf `Fill` carries —
`creator.NewFill` accepts a solid color or a gradient. -/
inductive FillPaint where
  | solid (c : Color)
  | linear (g : LinearGradient)
  | radial (g : RadialGradient)
deriving DecidableEq, Repr

/-- Modelled from the spec: a gxpdf `creator.Fill` — a paint source, an
opacity (opaque by default) and a fill rule (`fill.Rule` is assigned by
the adapter). -/
structure Fill where
  Paint : FillPaint
  Opacity : ℚ
  Rule : FillRule
deriving DecidableEq, Repr

/-- Modelled from the spec: `creator.NewFill` on a solid color — fully
opaque, default rule. -/
def NewFill (c : Color) : Fill := ⟨.solid c, 1, .NonZero⟩

/-- Modelled from the spec: `creator.NewFill` on a linear gradient. -/
def NewFillLinear (g : LinearGradient) : Fill := ⟨.linear g, 1, .NonZero⟩

/-- Modelled from the spec: `creator.NewFill` on a radial gradient. -/
def NewFillRadial (g : RadialGradient) : Fill := ⟨.radial g, 1, .NonZero⟩

/-- Modelled from the spec: `Fill.WithOpacity`. -/
def Fill.WithOpacity (f : Fill) (opacity : ℚ) : Fill :=
  { f with Opacity := opacity }

/-- Modelled from the spec: the engine's `creator.LineCap`. -/
inductive LineCap where
  | LineCapButt
  | LineCapRound
  | LineCapSquare
deriving DecidableEq, Repr

/-- Modelled from the spec: the engine's `creator.LineJoin`. -/
inductive LineJoin where
  | LineJoinMiter
  | LineJoinRound
  | LineJoinBevel
deriving DecidableEq, Repr

/-- Modelled from the spec: a gxpdf `creator.Stroke`; `creator.NewStroke`
takes the color, the remaining fields start at their zero values and are
assigned by the adapter. -/
structure Stroke where
  Color : Color
  Width : ℚ
  LineCap : LineCap
  LineJoin : LineJoin
  MiterLimit : ℚ
  DashArray : List ℚ
  DashPhase : ℚ
deriving DecidableEq, Repr

/-- Modelled from the spec: `creator.NewStroke`. -/
def NewStroke (c : Color) : Stroke :=
  ⟨c, 0, .LineCapButt, .LineJoinMiter, 0, [], 0⟩

/-- Modelled from the spec: one gxpdf path command
(`MoveTo` / `LineTo` / `QuadraticTo` / `CubicTo` / `Close`). -/
inductive PathCmd where
  | moveTo (x y : ℚ)
  | lineTo (x y : ℚ)
  | quadraticTo (cx cy x y : ℚ)
  | cubicTo (c1x c1y c2x c2y x y : ℚ)
  | close
deriving DecidableEq, Repr

/-- Modelled from the spec: a gxpdf `creator.Path` as its command list
(`creator.NewPath` starts empty, builder calls append). -/
def Path := List PathCmd
deriving DecidableEq

end creator

/-- One drawing call the adapter issues to the document engine
(discarding the engine's error result, as the source does with `_ =`). -/
inductive EngineCmd where
  | fillPath (p : creator.Path) (f : creator.Fill)
  | strokePath (p : creator.Path) (s : creator.Stroke)
  | drawRect (x y w h : ℚ) (f : creator.Fill)
  | drawImage (x y w h : ℚ)
  | addTextColor (s : String) (x y : ℚ) (fontSize : ℚ) (c : creator.Color)
deriving DecidableEq

/-- `backendState` stores the graphics state for Save/Restore operations
(source: only the transform). -/
structure backendState where
  transform : recording.Matrix
deriving DecidableEq, Repr

/-- The `Backend` struct plus the document-engine state it drives: the
surface's transform stack (`engineStack`, head = most recently pushed
layer), its opacity-layer stack, its current fill/stroke, and the list of
drawing calls issued so far (`cmds`, oldest first). `width`/`height` are
the Go `float64` fields. -/
structure Backend where
  width : ℚ
  height : ℚ
  stateStack : List backendState
  currentTransform : recording.Matrix
  engineStack : List creator.Transform
  opacityStack : List ℚ
  fill : Option creator.Fill
  stroke : Option creator.Stroke
  cmds : List EngineCmd
deriving DecidableEq

namespace Backend

/-- The Y-flip transform installed by `Begin`:
`creator.Translate(0, height).Then(creator.Scale(1, -1))`. -/
def flipTransform (height : ℚ) : creator.Transform :=
  (creator.Translate 0 height).Then (creator.Scale 1 (-1))

/-- The `Backend` state right after a successful `Begin(width, height)`:
identity current transform, empty state stack, and the Y-flip transform
pushed onto the engine's transform stack. -/
def initState (width height : ℚ) : Backend :=
  { width := width
    height := height
    stateStack := []
    currentTransform := recording.Identity
    engineStack := [flipTransform height]
    opacityStack := []
    fill := none
    stroke := none
    cmds := [] }

/-- `Backend.Begin`, with the engine's page-creation outcome drawn from
the supply `outs` (head = next outcome, missing outcomes default to
success): on failure the wrapped error is returned (propagated, no second
attempt); on success the initialized state is returned. The second
component is the remaining outcome supply. -/
def Begin (width height : ℚ) (outs : List Bool) :
    Except String Backend × List Bool :=
  if outs.headD true then
    (.ok (initState width height), outs.drop 1)
  else
    (.error "pdf: failed to create page", outs.drop 1)

/-- `Backend.Save`: appends the current transform to the state stack and
pushes an identity layer onto the engine's transform stack. -/
def Save (b : Backend) : Backend :=
  { b with
    stateStack := b.stateStack ++ [{ transform := b.currentTransform }]
    engineStack := creator.Identity :: b.engineStack }

/-- `Backend.Restore`: no-op on an empty state stack; otherwise pops the
last saved state, makes its transform current, and pops one engine
layer. -/
def Restore (b : Backend) : Backend :=
  match b.stateStack.getLast? with
  | none => b
  | some state =>
    { b with
      stateStack := b.stateStack.dropLast
      currentTransform := state.transform
      engineStack := b.engineStack.tail }

/-- `Backend.matrixToTransform`: field mapping from the row-major
drawing-space matrix to the engine's `[a b c d e f]` column form
(`A→a, D→b, B→c, E→d, C→e, F→f` exactly as in the source). -/
def matrixToTransform (m : recording.Matrix) : creator.Transform :=
  { A := m.A, B := m.D
    C := m.B, D := m.E
    E := m.C, F := m.F }

/-- `Backend.SetTransform`: records `m` as the current transform, then
pops the engine's top transform layer and pushes the converted `m`. -/
def SetTransform (b : Backend) (m : recording.Matrix) : Backend :=
  { b with
    currentTransform := m
    engineStack := matrixToTransform m :: b.engineStack.tail }

/-- `Backend.translatePath`: element-by-element conversion of a gg path
to an engine path (no coordinate change; the Y flip is left to the
transform pushed in `Begin`). -/
def translatePath (path : gg.Path) : creator.Path :=
  path.map fun e =>
    match e with
    | .moveTo p => .moveTo p.X p.Y
    | .lineTo p => .lineTo p.X p.Y
    | .quadTo c p => .quadraticTo c.X c.Y p.X p.Y
    | .cubicTo c1 c2 p => .cubicTo c1.X c1.Y c2.X c2.Y p.X p.Y
    | .close => .close

/-- Byte-color to engine color: each component divided by 255
(the alpha byte is not part of the engine color). -/
def toCColor (c : recording.RGBA) : creator.Color :=
  { R := (c.R : ℚ) / 255, G := (c.G : ℚ) / 255, B := (c.B : ℚ) / 255 }

/-- `Backend.translateLinearGradient`. -/
def translateLinearGradient (br : recording.LinearGradientBrush) :
    creator.Fill :=
  let grad := creator.NewLinearGradient br.Start.X br.Start.Y br.End.X br.End.Y
  let grad := br.Stops.foldl
    (fun g stop => g.AddColorStop stop.Offset (toCColor stop.Color)) grad
  creator.NewFillLinear grad

/-- `Backend.translateRadialGradient`. -/
def translateRadialGradient (br : recording.RadialGradientBrush) :
    creator.Fill :=
  let grad := creator.NewRadialGradient br.Center.X br.Center.Y br.StartRadius
    br.Focus.X br.Focus.Y br.EndRadius
  let grad := br.Stops.foldl
    (fun g stop => g.AddColorStop stop.Offset (toCColor stop.Color)) grad
  creator.NewFillRadial grad

/-- `Backend.translateBrushToFill`: solid brushes map to RGB plus opacity
(applied only when below 1); linear/radial gradients translate stop by
stop; sweep gradients fall back to a solid fill of the first stop's
color, or black when there is no stop; any other brush yields black. -/
def translateBrushToFill (brush : recording.Brush) : creator.Fill :=
  match brush with
  | .solid br =>
    let fill := creator.NewFill (toCColor br.Color)
    let opacity := (br.Color.A : ℚ) / 255
    if opacity < 1 then fill.WithOpacity opacity else fill
  | .linearGradient br => translateLinearGradient br
  | .radialGradient br => translateRadialGradient br
  | .sweepGradient br =>
    match br.Stops with
    | stop :: _ => creator.NewFill (toCColor stop.Color)
    | [] => creator.NewFill creator.Black
  | .other => creator.NewFill creator.Black

/-- `Backend.brushToColor`: the color a brush contributes to text and
stroke operations — the solid color, or a gradient's first stop color,
or black when neither exists. -/
def brushToColor (brush : recording.Brush) : creator.Color :=
  match brush with
  | .solid br => toCColor br.Color
  | .linearGradient br =>
    match br.Stops with
    | stop :: _ => toCColor stop.Color
    | [] => creator.Black
  | .radialGradient br =>
    match br.Stops with
    | stop :: _ => toCColor stop.Color
    | [] => creator.Black
  | .sweepGradient br =>
    match br.Stops with
    | stop :: _ => toCColor stop.Color
    | [] => creator.Black
  | .other => creator.Black

/-- `Backend.translateFillRule`. -/
def translateFillRule (rule : recording.FillRule) : creator.FillRule :=
  match rule with
  | .EvenOdd => .EvenOdd
  | .NonZero => .NonZero

/-- `Backend.translateLineCap`. -/
def translateLineCap (lineCap : recording.LineCap) : creator.LineCap :=
  match lineCap with
  | .Round => .LineCapRound
  | .Square => .LineCapSquare
  | .Butt => .LineCapButt

/-- `Backend.translateLineJoin`. -/
def translateLineJoin (join : recording.LineJoin) : creator.LineJoin :=
  match join with
  | .Round => .LineJoinRound
  | .Bevel => .LineJoinBevel
  | .Miter => .LineJoinMiter

/-- `Backend.translateStroke`. -/
def translateStroke (brush : recording.Brush) (stroke : recording.Stroke) :
    creator.Stroke :=
  let s := creator.NewStroke (brushToColor brush)
  let s := { s with
    Width := stroke.Width
    LineCap := translateLineCap stroke.Cap
    LineJoin := translateLineJoin stroke.Join
    MiterLimit := stroke.MiterLimit }
  if stroke.DashPattern.length > 0 then
    { s with DashArray := stroke.DashPattern, DashPhase := stroke.DashOffset }
  else
    s

/-- `Backend.FillPath`: sets the surface fill (brush translation with the
rule assigned) and clears the stroke, then issues the fill call; the
engine's error result is discarded. -/
def FillPath (b : Backend) (path : gg.Path) (brush : recording.Brush)
    (rule : recording.FillRule) : Backend :=
  let pdfPath := translatePath path
  let fill := { translateBrushToFill brush with Rule := translateFillRule rule }
  { b with
    fill := some fill
    stroke := none
    cmds := b.cmds ++ [.fillPath pdfPath fill] }

/-- `Backend.StrokePath`: sets the surface stroke and clears the fill,
then issues the stroke call; the engine's error result is discarded. -/
def StrokePath (b : Backend) (path : gg.Path) (brush : recording.Brush)
    (stroke : recording.Stroke) : Backend :=
  let pdfPath := translatePath path
  let pdfStroke := translateStroke brush stroke
  { b with
    stroke := some pdfStroke
    fill := none
    cmds := b.cmds ++ [.strokePath pdfPath pdfStroke] }

/-- `Backend.FillRect`: sets the surface fill and clears the stroke, then
issues the rectangle call; the engine's error result is discarded. -/
def FillRect (b : Backend) (rect : recording.Rect)
    (brush : recording.Brush) : Backend :=
  let fill := translateBrushToFill brush
  { b with
    fill := some fill
    stroke := none
    cmds := b.cmds ++ [.drawRect rect.MinX rect.MinY rect.Width rect.Height fill] }

/-- `Backend.DrawImage`, with the two fallible encoding steps (PNG encode
of the Go image, engine image load) as explicit outcomes: either failure
returns silently; otherwise an opacity layer brackets the draw call when
`Alpha < 1`. The image pixels themselves do not affect the adapter state
and are not modelled. -/
def DrawImage (b : Backend) (src dst : recording.Rect)
    (opts : recording.ImageOptions) (encodeOk loadOk : Bool) : Backend :=
  if !encodeOk then b
  else if !loadOk then b
  else
    let b1 := if opts.Alpha < 1 then
        { b with opacityStack := opts.Alpha :: b.opacityStack }
      else b
    let b2 := { b1 with
      cmds := b1.cmds ++ [.drawImage dst.MinX dst.MinY dst.Width dst.Height] }
    if opts.Alpha < 1 then { b2 with opacityStack := b2.opacityStack.tail }
    else b2

/-- `Backend.DrawText`: extracts the brush color and the font size (face
size, else its line height, else 12) and issues the text call; the
engine's error result is discarded. -/
def DrawText (b : Backend) (s : String) (x y : ℚ) (face : Option text.Face)
    (brush : recording.Brush) : Backend :=
  let color := brushToColor brush
  let fontSize : ℚ :=
    match face with
    | none => 12
    | some f =>
      if f.Size ≤ 0 then
        if f.LineHeight ≤ 0 then 12 else f.LineHeight
      else f.Size
  { b with cmds := b.cmds ++ [.addTextColor s x y fontSize color] }

end Backend

/-- One Save/Restore/SetTransform call on the adapter. -/
inductive BOp where
  | save
  | restore
  | setTransform (m : recording.Matrix)
deriving DecidableEq

/-- Apply one `BOp` to a backend. -/
def Backend.applyOp (b : Backend) : BOp → Backend
  | .save => b.Save
  | .restore => b.Restore
  | .setTransform m => b.SetTransform m

/-- Run a call sequence left to right. -/
def Backend.runOps (b : Backend) : List BOp → Backend
  | [] => b
  | op :: ops => (b.applyOp op).runOps ops

/-- The state-stack depth after running a call sequence from depth `n`:
Save pushes, Restore pops when possible (truncated subtraction matches
the no-op on an empty stack), SetTransform leaves it alone. -/
def stateDepth : ℕ → List BOp → ℕ
  | n, [] => n
  | n, .save :: ops => stateDepth (n + 1) ops
  | n, .restore :: ops => stateDepth (n - 1) ops
  | n, .setTransform _ :: ops => stateDepth n ops

/-- The number of unmatched Save calls in a call sequence (Restores on an
empty stack match nothing). -/
def unmatchedSaves (ops : List BOp) : ℕ := stateDepth 0 ops

/-- `pageBackend`: a `Backend` bound to the document's shared engine
session; `hasPage` records whether the engine page creation succeeded
(`page`/`surface` non-nil in Go). -/
structure pageBackend where
  backend : Backend
  hasPage : Bool
deriving DecidableEq

/-- The `Document` struct plus the engine-session state it owns (the
metadata fields live in the shared `creator`). -/
structure Document where
  pages : List pageBackend
  finished : Bool
  title : Option String
  author : Option String
  subject : Option String
  keywords : Option String
deriving DecidableEq

/-- `NewDocument`. -/
def NewDocument : Document :=
  { pages := [], finished := false
    title := none, author := none, subject := none, keywords := none }

namespace Document

/-- `Document.NewPage` with the engine's page-creation outcome explicit.
On failure the partially initialized backend is returned anyway (Go:
"Return backend anyway, it will fail on drawing") — no page, Go
zero-value current transform, nothing pushed, and the page is NOT added
to the document. On success the page is appended and the backend is set
up exactly as `Backend.initState` (identity transform plus the pushed
Y-flip layer). `NewPage` returns no error in either case. -/
def NewPageCore (d : Document) (width height : ℚ) (ok : Bool) :
    Document × pageBackend :=
  if ok then
    let pb : pageBackend := { backend := Backend.initState width height
                              hasPage := true }
    ({ d with pages := d.pages ++ [pb] }, pb)
  else
    let pb : pageBackend :=
      { backend :=
          { width := width, height := height
            stateStack := []
            currentTransform := recording.Matrix.zero
            engineStack := [], opacityStack := []
            fill := none, stroke := none, cmds := [] }
        hasPage := false }
    (d, pb)

/-- `Document.NewPage`, drawing the engine's page-creation outcome from
the supply `outs` (missing outcomes default to success); the last
component is the remaining supply. -/
def NewPage (d : Document) (width height : ℚ) (outs : List Bool) :
    (Document × pageBackend) × List Bool :=
  (d.NewPageCore width height (outs.headD true), outs.drop 1)

/-- `Document.PageCount`. -/
def PageCount (d : Document) : ℕ := d.pages.length

/-- `Document.SetTitle` (pass-through to the engine session). -/
def SetTitle (d : Document) (title : String) : Document :=
  { d with title := some title }

/-- `Document.SetAuthor` (pass-through to the engine session). -/
def SetAuthor (d : Document) (author : String) : Document :=
  { d with author := some author }

/-- `Document.SetSubject` (pass-through to the engine session). -/
def SetSubject (d : Document) (subject : String) : Document :=
  { d with subject := some subject }

/-- `Document.SetKeywords` (pass-through to the engine session). -/
def SetKeywords (d : Document) (keywords : String) : Document :=
  { d with keywords := some keywords }

end Document

/-- One call on a `Document`: a page creation (with its engine outcome)
or a metadata setter. -/
inductive DocOp where
  | newPage (width height : ℚ) (ok : Bool)
  | setTitle (s : String)
  | setAuthor (s : String)
  | setSubject (s : String)
  | setKeywords (s : String)
deriving DecidableEq

/-- Apply one `DocOp` to a document (the backend handed out by a page
creation is not needed for the document-level properties). -/
def Document.applyOp (d : Document) : DocOp → Document
  | .newPage w h ok => (d.NewPageCore w h ok).1
  | .setTitle s => d.SetTitle s
  | .setAuthor s => d.SetAuthor s
  | .setSubject s => d.SetSubject s
  | .setKeywords s => d.SetKeywords s

/-- Run a call sequence on a document, left to right. -/
def Document.runOps (d : Document) : List DocOp → Document
  | [] => d
  | op :: ops => (d.applyOp op).runOps ops

/-- The number of `newPage` calls in a sequence. -/
def countNewPage : List DocOp → ℕ
  | [] => 0
  | .newPage _ _ _ :: ops => countNewPage ops + 1
  | _ :: ops => countNewPage ops

/-- Whether every page creation in the sequence succeeds on the engine
side. -/
def allCreationsOk : List DocOp → Bool
  | [] => true
  | .newPage _ _ ok :: ops => ok && allCreationsOk ops
  | _ :: ops => allCreationsOk ops

/-! Helper lemmas shared by the claim theorems. -/

theorem Backend.runOps_append (b : Backend) (l1 l2 : List BOp) :
    b.runOps (l1 ++ l2) = (b.runOps l1).runOps l2 := by
  induction l1 generalizing b with
  | nil => rfl
  | cons op ops ih => simp [Backend.runOps, ih]

theorem Backend.stateStack_setTransforms (ms : List recording.Matrix)
    (b : Backend) :
    (b.runOps (ms.map BOp.setTransform)).stateStack = b.stateStack := by
  induction ms generalizing b with
  | nil => rfl
  | cons m ms ih =>
    simpa [Backend.runOps, Backend.applyOp, Backend.SetTransform] using ih _

theorem Backend.stateStack_length_runOps (ops : List BOp) (b : Backend) :
    (b.runOps ops).stateStack.length = stateDepth b.stateStack.length ops := by
  induction ops generalizing b with
  | nil => rfl
  | cons op ops ih =>
    cases op with
    | save =>
      rw [Backend.runOps, ih]
      simp [Backend.applyOp, Backend.Save, stateDepth]
    | restore =>
      rw [Backend.runOps, ih]
      cases hl : b.stateStack.getLast? with
      | none =>
        have he : b.stateStack = [] := List.getLast?_eq_none_iff.mp hl
        simp [Backend.applyOp, Backend.Restore, hl, he, stateDepth]
      | some st =>
        simp [Backend.applyOp, Backend.Restore, hl, stateDepth,
          List.length_dropLast]
    | setTransform m =>
      rw [Backend.runOps, ih]
      simp [Backend.applyOp, Backend.SetTransform, stateDepth]

theorem Backend.engine_length_invariant (ops : List BOp) (b : Backend)
    (hb : b.engineStack.length = 1 + b.stateStack.length) :
    (b.runOps ops).engineStack.length
      = 1 + (b.runOps ops).stateStack.length := by
  induction ops generalizing b with
  | nil => exact hb
  | cons op ops ih =>
    rw [Backend.runOps]
    apply ih
    cases op with
    | save =>
      simp [Backend.applyOp, Backend.Save, hb]
      omega
    | restore =>
      cases hl : b.stateStack.getLast? with
      | none => simpa [Backend.applyOp, Backend.Restore, hl] using hb
      | some st =>
        have hne : b.stateStack ≠ [] := by
          intro he
          rw [he] at hl
          simp at hl
        have hpos : 1 ≤ b.stateStack.length := by
          cases h : b.stateStack with
          | nil => exact absurd h hne
          | cons x xs => simp [h]
        simp only [Backend.applyOp, Backend.Restore, hl, List.length_tail,
          List.length_dropLast]
        omega
    | setTransform m =>
      simp only [Backend.applyOp, Backend.SetTransform, List.length_cons,
        List.length_tail]
      omega

/-! Claim theorems. -/

/-- C1 (code behavior at the failing input): after `Begin(800, 600)`, a
single `SetTransform(Identity)` with no enclosing `Save` pops the Y-flip
base layer itself, leaving only the identity layer on the engine's
transform stack, so the drawing-space point `(5, 7)` maps to the device
point `(5, 7)` — not to `(5, 600 − 7) = (5, 593)`, the point the flip
layer would produce (third conjunct). -/
theorem C1_setTransform_pops_flip_layer :
    ((Backend.initState 800 600).SetTransform recording.Identity).engineStack
        = [Backend.matrixToTransform recording.Identity]
    ∧ creator.applyStack
        ((Backend.initState 800 600).SetTransform recording.Identity).engineStack
        (5, 7) = (5, 7)
    ∧ creator.applyStack [Backend.flipTransform 600] (5, 7) = (5, 593) := by
  refine ⟨rfl, ?_, ?_⟩ <;>
    norm_num [creator.applyStack, creator.Transform.apply, Backend.initState,
      Backend.SetTransform, Backend.matrixToTransform, recording.Identity,
      Backend.flipTransform, creator.Translate, creator.Scale,
      creator.Transform.Then]

/-- C2: starting from the state `Begin` establishes, every sequence of
Save/Restore/SetTransform calls leaves the document-engine transform
stack at depth `1 + unmatchedSaves` (the flip layer plus one layer per
unmatched Save); moreover `Save` pushes exactly one identity layer (not
the current transform), `Restore` on a non-empty state stack pops exactly
one engine layer, and `SetTransform` performs exactly one pop followed by
one push. -/
theorem C2_engine_stack_depth (width height : ℚ) (ops : List BOp)
    (b : Backend) (m : recording.Matrix) :
    ((Backend.initState width height).runOps ops).engineStack.length
        = 1 + unmatchedSaves ops
    ∧ (b.Save).engineStack = creator.Identity :: b.engineStack
    ∧ (b.stateStack ≠ [] → (b.Restore).engineStack = b.engineStack.tail)
    ∧ (b.SetTransform m).engineStack
        = Backend.matrixToTransform m :: b.engineStack.tail := by
  refine ⟨?_, rfl, ?_, rfl⟩
  · rw [Backend.engine_length_invariant ops (Backend.initState width height)
      (by simp [Backend.initState]), Backend.stateStack_length_runOps]
    simp [Backend.initState, unmatchedSaves]
  · intro h
    cases hl : b.stateStack.getLast? with
    | none => exact absurd (List.getLast?_eq_none_iff.mp hl) h
    | some st => simp [Backend.Restore, hl]

/-- C2 witness: the depth law, the identity push, the single engine pop
and the pop-push of `SetTransform`, at concrete inputs (the `Restore`
conjunct is taken at a state whose state stack is non-empty). -/
theorem C2_engine_stack_depth_witness :
    ((Backend.initState 800 600).runOps [BOp.save]).engineStack.length
        = 1 + unmatchedSaves [BOp.save]
    ∧ (((Backend.initState 800 600).Save).Save).engineStack
        = creator.Identity :: ((Backend.initState 800 600).Save).engineStack
    ∧ (((Backend.initState 800 600).Save).Restore).engineStack
        = ((Backend.initState 800 600).Save).engineStack.tail
    ∧ (((Backend.initState 800 600).Save).SetTransform recording.Identity).engineStack
        = Backend.matrixToTransform recording.Identity
            :: ((Backend.initState 800 600).Save).engineStack.tail := by
  obtain ⟨h1, h2, h3, h4⟩ := C2_engine_stack_depth 800 600 [BOp.save]
    ((Backend.initState 800 600).Save) recording.Identity
  exact ⟨h1, h2, h3 (by simp [Backend.Save]), h4⟩

/-- C3: for every starting state and every list of transforms set inside
the saved scope, `Save(); SetTransform*; Restore()` leaves the current
transform equal to the transform active immediately before the `Save`. -/
theorem C3_restore_reverts_transform (b : Backend)
    (ms : List recording.Matrix) :
    (b.runOps (BOp.save :: ms.map BOp.setTransform ++ [BOp.restore])).currentTransform
      = b.currentTransform := by
  have h1 : b.runOps (BOp.save :: ms.map BOp.setTransform ++ [BOp.restore])
      = ((b.Save).runOps (ms.map BOp.setTransform)).Restore := by
    rw [show BOp.save :: ms.map BOp.setTransform ++ [BOp.restore]
          = ([BOp.save] ++ ms.map BOp.setTransform) ++ [BOp.restore] by simp,
      Backend.runOps_append, Backend.runOps_append]
    rfl
  have h2 : ((b.Save).runOps (ms.map BOp.setTransform)).stateStack
      = b.stateStack ++ [{ transform := b.currentTransform }] := by
    rw [Backend.stateStack_setTransforms]
    rfl
  rw [h1]
  simp [Backend.Restore, h2, List.getLast?_concat]

/-- C4: starting from the state `Begin` establishes, the state-stack
depth after any Save/Restore/SetTransform sequence equals the number of
unmatched Save calls (so the depth after a Restore matching a Save equals
the depth before that Save), and `Restore` on an empty state stack
returns the state completely unchanged (the adapter's `Restore` returns
no error: it is a total state transformer). -/
theorem C4_state_stack_depth (width height : ℚ) (ops : List BOp)
    (b : Backend) :
    ((Backend.initState width height).runOps ops).stateStack.length
        = unmatchedSaves ops
    ∧ (b.stateStack = [] → b.Restore = b) := by
  constructor
  · rw [Backend.stateStack_length_runOps]
    simp [Backend.initState, unmatchedSaves]
  · intro h
    simp [Backend.Restore, h]

/-- C4 witness: a Save/Restore sequence with one extra Restore at depth
zero, and the no-op Restore on the freshly initialized (empty-stack)
state. -/
theorem C4_state_stack_depth_witness :
    ((Backend.initState 800 600).runOps [BOp.save, BOp.restore, BOp.restore]).stateStack.length
        = unmatchedSaves [BOp.save, BOp.restore, BOp.restore]
    ∧ (Backend.initState 800 600).Restore = Backend.initState 800 600 := by
  obtain ⟨h1, h2⟩ := C4_state_stack_depth 800 600
    [BOp.save, BOp.restore, BOp.restore] (Backend.initState 800 600)
  exact ⟨h1, h2 rfl⟩

/-- C5: the drawing-space to engine-space matrix field mapping is exactly
`a=A, b=D, c=B, d=E, e=C, f=F`, and the drawing-space identity matrix
maps to the engine-space `a=1, b=0, c=0, d=1, e=0, f=0`. -/
theorem C5_matrix_field_mapping (m : recording.Matrix) :
    (Backend.matrixToTransform m).A = m.A
    ∧ (Backend.matrixToTransform m).B = m.D
    ∧ (Backend.matrixToTransform m).C = m.B
    ∧ (Backend.matrixToTransform m).D = m.E
    ∧ (Backend.matrixToTransform m).E = m.C
    ∧ (Backend.matrixToTransform m).F = m.F
    ∧ Backend.matrixToTransform recording.Identity
        = { A := 1, B := 0, C := 0, D := 1, E := 0, F := 0 } := by
  exact ⟨rfl, rfl, rfl, rfl, rfl, rfl, rfl⟩

/-- C6: translating a sweep-gradient brush with a non-empty stop list
yields a solid fill of the first stop's color (`creator.NewFill` on that
color); `FillPath` with such a brush installs exactly that fill (with the
requested rule); and the concrete stops `[(0, red), (1, green)]` yield
the solid red fill `(1, 0, 0)`. -/
theorem C6_sweep_gradient_first_stop (stop : recording.GradientStop)
    (rest : List recording.GradientStop) (b : Backend) (path : gg.Path)
    (rule : recording.FillRule) :
    Backend.translateBrushToFill (.sweepGradient ⟨stop :: rest⟩)
        = creator.NewFill (Backend.toCColor stop.Color)
    ∧ (b.FillPath path (.sweepGradient ⟨stop :: rest⟩) rule).fill
        = some { creator.NewFill (Backend.toCColor stop.Color) with
                 Rule := Backend.translateFillRule rule }
    ∧ Backend.translateBrushToFill
        (.sweepGradient ⟨[⟨0, ⟨255, 0, 0, 255⟩⟩, ⟨1, ⟨0, 255, 0, 255⟩⟩]⟩)
        = creator.NewFill ⟨1, 0, 0⟩ := by
  refine ⟨rfl, rfl, ?_⟩
  norm_num [Backend.translateBrushToFill, Backend.toCColor, creator.NewFill]

/-- C7 counterexample: with the engine failing to create the page,
`Document.NewPage` on a fresh document returns normally — a
document–backend pair, with no error component in its result type at all
— leaving the document without the page (`pages` still empty) and
handing back a backend with no page; the session error therefore never
reaches the caller, contradicting the claim that every page-creating
operation propagates it. -/
theorem C7_counterexample_newPage_swallows :
    (NewDocument.NewPage 800 600 [false]).1.1 = NewDocument
    ∧ (NewDocument.NewPage 800 600 [false]).1.2.hasPage = false
    ∧ (NewDocument.NewPage 800 600 [false]).1.1.pages.length = 0 := by
  exact ⟨rfl, rfl, rfl⟩

/-- C7 (amended): when the engine fails to create a page, `Backend.Begin`
propagates the wrapped session error to its caller, while
`Document.NewPage` — whose result carries no error — swallows the
failure, returning a backend without a page and leaving the document's
page list unchanged; both operations consume exactly one creation
outcome from the engine (they never retry). -/
theorem C7_session_error_handling (width height : ℚ)
    (outs rest : List Bool) (d : Document) :
    (Backend.Begin width height (false :: rest)).1
        = .error "pdf: failed to create page"
    ∧ (Backend.Begin width height outs).2 = outs.drop 1
    ∧ (d.NewPage width height (false :: rest)).1.1 = d
    ∧ (d.NewPage width height (false :: rest)).1.2.hasPage = false
    ∧ (d.NewPage width height outs).2 = outs.drop 1 := by
  refine ⟨rfl, ?_, rfl, rfl, rfl⟩
  unfold Backend.Begin
  split <;> rfl

/-- C8: each drawing operation is a total state transformer (its Go
counterpart returns no error; engine and encoding failures are silently
swallowed), and for every combination of failure outcomes it leaves the
adapter's graphics state — the current transform and the state stack —
unchanged. -/
theorem C8_drawing_ops_preserve_graphics_state (b : Backend)
    (path : gg.Path) (brush : recording.Brush) (rule : recording.FillRule)
    (stroke : recording.Stroke) (rect : recording.Rect)
    (src dst : recording.Rect) (opts : recording.ImageOptions)
    (encodeOk loadOk : Bool) (s : String) (x y : ℚ)
    (face : Option text.Face) :
    ((b.FillPath path brush rule).currentTransform = b.currentTransform
      ∧ (b.FillPath path brush rule).stateStack = b.stateStack)
    ∧ ((b.StrokePath path brush stroke).currentTransform = b.currentTransform
      ∧ (b.StrokePath path brush stroke).stateStack = b.stateStack)
    ∧ ((b.FillRect rect brush).currentTransform = b.currentTransform
      ∧ (b.FillRect rect brush).stateStack = b.stateStack)
    ∧ ((b.DrawImage src dst opts encodeOk loadOk).currentTransform
          = b.currentTransform
      ∧ (b.DrawImage src dst opts encodeOk loadOk).stateStack = b.stateStack)
    ∧ ((b.DrawText s x y face brush).currentTransform = b.currentTransform
      ∧ (b.DrawText s x y face brush).stateStack = b.stateStack) := by
  refine ⟨⟨rfl, rfl⟩, ⟨rfl, rfl⟩, ⟨rfl, rfl⟩, ?_, ⟨rfl, rfl⟩⟩
  cases encodeOk with
  | false => exact ⟨rfl, rfl⟩
  | true =>
    cases loadOk with
    | false => exact ⟨rfl, rfl⟩
    | true =>
      by_cases halpha : opts.Alpha < 1 <;>
        simp [Backend.DrawImage, halpha]

/-- C9: running any interleaving of page creations and metadata setters
in which every engine page creation succeeds adds exactly one page per
`NewPage` call: `PageCount` afterwards equals the starting count plus the
number of `NewPage` calls, wherever the metadata calls fall. -/
theorem C9_page_count (d : Document) (ops : List DocOp)
    (h : allCreationsOk ops = true) :
    (d.runOps ops).PageCount = d.PageCount + countNewPage ops := by
  induction ops generalizing d with
  | nil => rfl
  | cons op ops ih =>
    cases op with
    | newPage w hgt ok =>
      simp only [allCreationsOk, Bool.and_eq_true] at h
      obtain ⟨hok, hrest⟩ := h
      subst hok
      rw [Document.runOps, ih _ hrest]
      simp [Document.applyOp, Document.NewPageCore, Document.PageCount,
        countNewPage]
      omega
    | setTitle s =>
      simp only [allCreationsOk] at h
      rw [Document.runOps, ih _ h]
      simp [Document.applyOp, Document.SetTitle, Document.PageCount,
        countNewPage]
    | setAuthor s =>
      simp only [allCreationsOk] at h
      rw [Document.runOps, ih _ h]
      simp [Document.applyOp, Document.SetAuthor, Document.PageCount,
        countNewPage]
    | setSubject s =>
      simp only [allCreationsOk] at h
      rw [Document.runOps, ih _ h]
      simp [Document.applyOp, Document.SetSubject, Document.PageCount,
        countNewPage]
    | setKeywords s =>
      simp only [allCreationsOk] at h
      rw [Document.runOps, ih _ h]
      simp [Document.applyOp, Document.SetKeywords, Document.PageCount,
        countNewPage]

/-- C9 witness: two successful page creations interleaved with metadata
setters on a fresh document give a page count of 2. -/
theorem C9_page_count_witness :
    (NewDocument.runOps
        [DocOp.newPage 800 600 true, DocOp.setTitle "Title",
         DocOp.newPage 600 800 true, DocOp.setAuthor "Author"]).PageCount
      = 2 := by
  exact (C9_page_count NewDocument
    [DocOp.newPage 800 600 true, DocOp.setTitle "Title",
     DocOp.newPage 600 800 true, DocOp.setAuthor "Author"] rfl).trans rfl

/-- C10: a sweep-gradient brush with no stops and a brush outside the
four handled kinds both translate, without failing (total functions), to
the solid opaque black fill for fill operations, and to black for the
stroke/text color extraction; the produced fill is fully opaque solid
black. -/
theorem C10_black_fallback :
    Backend.translateBrushToFill (.sweepGradient ⟨[]⟩)
        = creator.NewFill creator.Black
    ∧ Backend.translateBrushToFill .other = creator.NewFill creator.Black
    ∧ Backend.brushToColor (.sweepGradient ⟨[]⟩) = creator.Black
    ∧ Backend.brushToColor .other = creator.Black
    ∧ (creator.NewFill creator.Black).Opacity = 1
    ∧ (creator.NewFill creator.Black).Paint = .solid creator.Black := by
  exact ⟨rfl, rfl, rfl, rfl, rfl, rfl⟩
